import Mathlib

set_option maxRecDepth 16384

/-!
Verification of the PCI.DSS summary-report engine (src/AWS/*.py).

The Python scripts parse semi-structured HTML report content with a small set
of fixed regular expressions (literal patterns, lazy captures `L(.*?)R`, tag
stripping `<[^>]+>`, whitespace trimming), count pass/fail/warn markers,
classify compliance percentages, and aggregate per-requirement records.

Document content is embedded as `List Char`.  Each regex used by the source is
modelled by an executable scanning function with the same leftmost /
non-overlapping / lazy-capture semantics (for the simple pattern shapes that
occur in the source, the backtracking regex engine never needs to backtrack
past the first lazy candidate, so a first-candidate scan is faithful).
Python float percentage arithmetic is modelled with exact rationals; the
claims under study only involve values where the two agree.  Fallible file
reads are modelled with `Except`: `.ok content` is a successful read,
`.error e` a read/decode failure with message `e`.
-/

/-- ASCII whitespace as recognised by Python `str.strip` / regex `\s`
(unicode whitespace beyond ASCII is not modelled). -/
def pySpace (c : Char) : Bool :=
  c = ' ' || c = '\t' || c = '\n' || c = '\r' || c = '\x0b' || c = '\x0c'

/-- Python `str.strip()`: drop leading and trailing whitespace. -/
def pyStrip (s : List Char) : List Char :=
  ((s.dropWhile pySpace).reverse.dropWhile pySpace).reverse

/-- Length of a `[^>]+>` match at the head of `s` (the text just after a `<`),
if any: at least one non-`>` character, greedily, then a `>`. -/
def tagEnd (s : List Char) : Option Nat :=
  let body := s.takeWhile (fun c => !(c = '>'))
  if body.length = 0 then none
  else if body.length < s.length then some (body.length + 1)
  else none

/-- Worker for `removeTags`; the fuel argument only bounds the number of
scan steps (each step consumes at least one character), so `s.length` fuel
is always enough. -/
def removeTagsAux : Nat → List Char → List Char
  | 0, s => s
  | _, [] => []
  | fuel + 1, c :: rest =>
    if c = '<' then
      match tagEnd rest with
      | some k => removeTagsAux fuel (rest.drop k)
      | none => c :: removeTagsAux fuel rest
    else c :: removeTagsAux fuel rest

/-- Python `re.sub(r'<[^>]+>', '', s)`: delete each non-overlapping leftmost
match of `<[^>]+>`. -/
def removeTags (s : List Char) : List Char :=
  removeTagsAux s.length s

/-- Worker for `countSubstr`; each step consumes at least one character, so
`s.length` fuel is always enough. -/
def countSubstrAux (pat : List Char) : Nat → List Char → Nat
  | 0, _ => 0
  | _, [] => 0
  | fuel + 1, c :: rest =>
    if pat.isPrefixOf (c :: rest) then
      1 + countSubstrAux pat fuel (rest.drop (pat.length - 1))
    else
      countSubstrAux pat fuel rest

/-- `len(re.findall(pat, s))` for a literal pattern `pat`: number of
non-overlapping leftmost occurrences. -/
def countSubstr (pat : List Char) (s : List Char) : Nat :=
  countSubstrAux pat s.length s

/-- Lazy capture `(.*?)` up to the first position where `matchClose` succeeds:
returns the captured characters together with the total number of characters
consumed (capture plus close). -/
def captureToM (matchClose : List Char → Option Nat) : List Char → Option (List Char × Nat)
  | [] => (matchClose []).map (fun k => ([], k))
  | c :: rest =>
    match matchClose (c :: rest) with
    | some k => some ([], k)
    | none => (captureToM matchClose rest).map (fun p => (c :: p.1, p.2 + 1))

/-- Close matcher for an alternation of literal closers (such as
`(?:<br>|</div>|</h3>)`): the first alternative that matches at this
position, as in a regex alternation. -/
def litClose (closers : List (List Char)) (s : List Char) : Option Nat :=
  (closers.find? (fun cl => cl.isPrefixOf s)).map List.length

/-- `re.findall(L(.*?)C, s)` for a literal opener `L` and close matcher
`matchClose`: scan left to right; at each occurrence of `L`, capture lazily up
to the first close; resume after the close (non-overlapping); if no close
follows an opener, the match attempt at that position fails and the scan
advances.  The `- 1` arithmetic re-expresses "continue after the full match"
structurally; it coincides with the regex behaviour whenever the full match
consumes at least one character, which holds for every pattern in the source.
The fuel argument of this worker only bounds the number of scan steps. -/
def findallMAux (matchClose : List Char → Option Nat) (L : List Char) :
    Nat → List Char → List (List Char)
  | 0, _ => []
  | _, [] => []
  | fuel + 1, c :: rest =>
    if L.isPrefixOf (c :: rest) then
      match captureToM matchClose ((c :: rest).drop L.length) with
      | some (cap, consumed) =>
          cap :: findallMAux matchClose L fuel (rest.drop (L.length + consumed - 1))
      | none => findallMAux matchClose L fuel rest
    else
      findallMAux matchClose L fuel rest

/-- `re.findall(L(.*?)C, s)` (see the worker above; each scan step consumes
at least one character, so `s.length` fuel is always enough). -/
def findallM (matchClose : List Char → Option Nat) (L : List Char)
    (s : List Char) : List (List Char) :=
  findallMAux matchClose L s.length s

/-- `re.search(L(.*?)C, s)`: the capture of the leftmost match, if any. -/
def searchM (matchClose : List Char → Option Nat) (L : List Char) : List Char → Option (List Char)
  | [] => none
  | c :: rest =>
    if L.isPrefixOf (c :: rest) then
      match captureToM matchClose ((c :: rest).drop L.length) with
      | some (cap, _) => some cap
      | none => searchM matchClose L rest
    else
      searchM matchClose L rest

/-- Close matcher for `</div>\s*</div>` (a literal close, greedy whitespace,
a second literal close).  Because `<` is not whitespace, the greedy `\s*`
never needs to backtrack: the maximal whitespace run must be followed
immediately by the second literal. -/
def matchCloseDivDiv (s : List Char) : Option Nat :=
  let divClose := "</div>".toList
  if divClose.isPrefixOf s then
    let rest := s.drop divClose.length
    let ws := rest.takeWhile pySpace
    if divClose.isPrefixOf (rest.drop ws.length) then
      some (divClose.length + ws.length + divClose.length)
    else none
  else none

/-- `re.search(r'<h3.*?>(.*?)</h3>', s, re.DOTALL)`: leftmost `<h3`, lazy run
to the first `>`, then lazy capture to the first `</h3>`.  (If no `</h3>`
follows the first `>`, none follows a later `>` either, so trying only the
first `>` agrees with the backtracking engine.) -/
def searchH3Title : List Char → Option (List Char)
  | [] => none
  | c :: rest =>
    if ("<h3".toList).isPrefixOf (c :: rest) then
      let after := (c :: rest).drop 3
      let pre := after.takeWhile (fun x => !(x = '>'))
      if pre.length < after.length then
        match captureToM (litClose ["</h3>".toList]) (after.drop (pre.length + 1)) with
        | some (cap, _) => some cap
        | none => searchH3Title rest
      else searchH3Title rest
    else searchH3Title rest

/-- `re.search(lit([0-9]+), s)` for a literal stem `lit`: at the leftmost
position where `lit` is followed by at least one ASCII digit, capture the
maximal digit run. -/
def searchPatDigits (lit : List Char) : List Char → Option (List Char)
  | [] => none
  | c :: rest =>
    if lit.isPrefixOf (c :: rest) then
      let digits := ((c :: rest).drop lit.length).takeWhile Char.isDigit
      if digits.length > 0 then some digits
      else searchPatDigits lit rest
    else searchPatDigits lit rest

/-- Python `int` on a non-empty ASCII digit string (the only shape ever passed
to `int` by the source: regex captures of `[0-9]+`). -/
def pyInt (s : List Char) : Nat :=
  s.foldl (fun acc c => acc * 10 + (c.toNat - 48)) 0

/-- Python substring test `pat in s`. -/
def containsSubstr (pat : List Char) : List Char → Bool
  | [] => pat.isEmpty
  | c :: rest => pat.isPrefixOf (c :: rest) || containsSubstr pat rest

/-- Python `"[FAIL]" in indicator`. -/
def has_fail_marker (ind : List Char) : Bool :=
  containsSubstr ("[FAIL]".toList) ind

/-! ## Patterns used by the counters and extractors

`re.IGNORECASE` counting is modelled by lowercasing the content with
`Char.toLower` (ASCII case folding) and matching the lowercased literal. -/

/-- Literal `\[PASS\]` (lowercased for case-insensitive counting). -/
def pass_tag : List Char := "[pass]".toList

/-- Literal `\[FAIL\]` (lowercased). -/
def fail_tag : List Char := "[fail]".toList

/-- Literal `\[WARN\]` (lowercased). -/
def warn_tag : List Char := "[warn]".toList

/-- Literal `<div class="check-item pass"`. -/
def pass_div : List Char := ("<div class=" ++ "\"check-item pass\"").toList

/-- Literal `<div class="check-item fail"`. -/
def fail_div : List Char := ("<div class=" ++ "\"check-item fail\"").toList

/-- Literal `<div class="check-item warning"`. -/
def warn_div : List Char := ("<div class=" ++ "\"check-item warning\"").toList

/-- Literal `<span class="red">\[FAIL\]</span>`. -/
def fail_span : List Char := ("<span class=" ++ "\"red\">[FAIL]</span>").toList

/-- Literal `</h3>`. -/
def h3_close : List Char := "</h3>".toList

/-- Literal `<div>`. -/
def div_open : List Char := "<div>".toList

/-- Literal `</div>`. -/
def div_close : List Char := "</div>".toList

/-- Literal `<br>`. -/
def br_tag : List Char := "<br>".toList

/-- Literal `<strong>Recommendation:</strong>`. -/
def strong_rec : List Char := "<strong>Recommendation:</strong>".toList

/-- Literal `<div class="recommendation">`. -/
def rec_div_open : List Char := ("<div class=" ++ "\"recommendation\">").toList

/-- Literal `<span class="red">`. -/
def span_red_open : List Char := ("<span class=" ++ "\"red\">").toList

/-- Literal `</span>`. -/
def span_close : List Char := "</span>".toList

/-- Literal `<div class="check-item fail">` (the structured-block opener). -/
def check_item_fail_open : List Char := ("<div class=" ++ "\"check-item fail\">").toList

/-! ## Data model -/

/-- Return value of `count_checks`:
`(total_checks, pass_count, fail_count, warn_count)`. -/
structure Counts where
  total_checks : Nat
  passed : Nat
  failed : Nat
  warnings : Nat
deriving DecidableEq, Repr

/-- A structured finding: `{"title": .., "details": .., "recommendation": ..}`. -/
structure Finding where
  title : List Char
  details : List Char
  recommendation : List Char
deriving DecidableEq, Repr

/-- The per-requirement dictionary built by
`generate_summary_report.extract_requirement_data` (the presentational
`title` field is omitted; every field the engine computes over is kept). -/
structure Record where
  req_num : List Char
  findings : List (List Char)
  critical_findings : List (List Char)
  total_checks : Nat
  passed : Nat
  failed : Nat
  warnings : Nat
  compliance_pct : ℚ
  status : String
  status_class : String
deriving DecidableEq, Repr

/-- The per-requirement dictionary built by
`generate_interactive_summary.extract_requirement_data` (identical in
`create_card_based_report.py`); the presentational `title` is omitted. -/
structure IRecord where
  req_num : List Char
  findings : List (List Char)
  detailed_findings : List Finding
  total_checks : Nat
  passed : Nat
  failed : Nat
  warnings : Nat
  compliance_pct : ℚ
  status : String
  status_class : String
deriving DecidableEq, Repr

/-- The stats dictionary returned by
`card_report_with_clickable.extract_stats`. -/
structure Stats where
  compliance_pct : ℚ
  status : String
  status_class : String
  total_checks : Nat
  passed : Nat
  failed : Nat
  warnings : Nat
deriving DecidableEq, Repr

/-- One entry of `overall_stats["critical_findings"]` in
`generate_summary_report.main`: `{"req": .., "finding": ..}`. -/
structure CriticalEntry where
  req : List Char
  finding : List Char
deriving DecidableEq, Repr

/-- One entry of `overall_stats["critical_findings"]` in
`generate_interactive_summary.main`. -/
structure DetailedCritical where
  req : List Char
  title : List Char
  details : List Char
  recommendation : List Char
deriving DecidableEq, Repr

/-- `overall_stats` in `generate_summary_report.main`. -/
structure OverallStats where
  total_checks : Nat
  passed : Nat
  failed : Nat
  warnings : Nat
  critical_findings : List CriticalEntry
deriving DecidableEq, Repr

/-- `overall_stats` in `generate_interactive_summary.main`. -/
structure OverallStatsI where
  total_checks : Nat
  passed : Nat
  failed : Nat
  warnings : Nat
  critical_findings : List DetailedCritical
deriving DecidableEq, Repr

/-! ## Statistics Counter and Status Classifier -/

/-- `count_checks(content)` — identical in `generate_summary_report.py`
(lines 157-181), `generate_interactive_summary.py` and
`create_card_based_report.py`: count the bracketed tags and the container
classes case-insensitively, take the per-category maximum of the two
strategies, and floor a zero total to one passed check. -/
def count_checks (content : List Char) : Counts :=
  let lc := content.map Char.toLower
  let pass_count := countSubstr pass_tag lc
  let fail_count := countSubstr fail_tag lc
  let warn_count := countSubstr warn_tag lc
  let pass_count_alt := countSubstr pass_div lc
  let fail_count_alt := countSubstr fail_div lc
  let warn_count_alt := countSubstr warn_div lc
  let pass_count := max pass_count pass_count_alt
  let fail_count := max fail_count fail_count_alt
  let warn_count := max warn_count warn_count_alt
  let total_checks := pass_count + fail_count + warn_count
  if total_checks = 0 then
    { total_checks := 1, passed := 1, failed := fail_count, warnings := warn_count }
  else
    { total_checks := total_checks, passed := pass_count,
      failed := fail_count, warnings := warn_count }

/-- The status chain of `generate_summary_report.extract_requirement_data`
(lines 116-125): compliance percentage to `(status, status_class)`. -/
def requirement_status (compliance_pct : ℚ) : String × String :=
  if compliance_pct ≥ 90 then ("Compliant", "compliant")
  else if compliance_pct ≥ 70 then ("Partially Compliant", "partial")
  else ("Non-Compliant", "non-compliant")

/-- The status chain of `generate_summary_report.generate_summary_html`
(lines 189-198), applied to the overall compliance percentage. -/
def overall_status_of (overall_compliance : ℚ) : String × String :=
  if overall_compliance ≥ 90 then ("Compliant", "compliant")
  else if overall_compliance ≥ 70 then ("Partially Compliant", "partial")
  else ("Non-Compliant", "non-compliant")

/-- `extract_requirement_number(filename)` — identical in all the scripts:
try `pci_req([0-9]+)`, then `pci_r([0-9]+)`, then `pci_requirement([0-9]+)`,
returning the first capture. -/
def extract_requirement_number (filename : List Char) : Option (List Char) :=
  match searchPatDigits ("pci_req".toList) filename with
  | some d => some d
  | none =>
    match searchPatDigits ("pci_r".toList) filename with
    | some d => some d
    | none => searchPatDigits ("pci_requirement".toList) filename

/-! ## generate_summary_report.py -/

namespace GSR

/-- The findings loop of `extract_requirement_data` (lines 102-108):
`re.findall(r'<span class="red">\[FAIL\]</span>(.*?)</h3>', content)`,
each match stripped and tag-cleaned. -/
def findings_of (content : List Char) : List (List Char) :=
  (findallM (litClose [h3_close]) fail_span content).map
    (fun m => removeTags (pyStrip m))

/-- `extract_requirement_data(file_path, req_num)` (lines 88-155).  The file
read is modelled by the `Except` argument: `.ok content` is a successful
read, `.error e` any exception raised inside the `try` block, handled by the
`except` branch. -/
def extract_requirement_data (req_num : List Char)
    (input : Except (List Char) (List Char)) : Record :=
  match input with
  | .ok content =>
    let findings := findings_of content
    let c := count_checks content
    let compliance_pct : ℚ :=
      if c.total_checks > 0 then (c.passed : ℚ) / (c.total_checks : ℚ) * 100 else 0
    let st := requirement_status compliance_pct
    { req_num := req_num
      findings := findings
      critical_findings := if findings.length > 0 then findings.take 3 else []
      total_checks := c.total_checks
      passed := c.passed
      failed := c.failed
      warnings := c.warnings
      compliance_pct := compliance_pct
      status := st.1
      status_class := st.2 }
  | .error _ =>
    { req_num := req_num
      findings := ["Error processing report".toList]
      critical_findings := ["Error processing report".toList]
      total_checks := 1
      passed := 0
      failed := 1
      warnings := 0
      compliance_pct := 0
      status := "Unknown"
      status_class := "non-compliant" }

/-- The accumulation loop of `main` (lines 40-62) over the already-read
document batch: skip files whose identifier does not resolve; otherwise
append the record, add its counts to `overall_stats`, and tag each of its
critical findings with the requirement number.  (The loop is a left
accumulation; this structural recursion produces the same record list, the
same sums, and the same critical-findings sequence.) -/
def process : List (List Char × Except (List Char) (List Char)) →
    List Record × OverallStats
  | [] => ([], { total_checks := 0, passed := 0, failed := 0, warnings := 0,
                 critical_findings := [] })
  | (filename, input) :: rest =>
    let prev := process rest
    match extract_requirement_number filename with
    | none => prev
    | some req_num =>
      let r := extract_requirement_data req_num input
      (r :: prev.1,
        { total_checks := r.total_checks + prev.2.total_checks
          passed := r.passed + prev.2.passed
          failed := r.failed + prev.2.failed
          warnings := r.warnings + prev.2.warnings
          critical_findings :=
            r.critical_findings.map (fun f => CriticalEntry.mk req_num f)
              ++ prev.2.critical_findings })

/-- `overall_compliance` in `generate_summary_html` (line 187). -/
def overall_compliance (stats : OverallStats) : ℚ :=
  if stats.total_checks > 0 then
    (stats.passed : ℚ) / (stats.total_checks : ℚ) * 100
  else 0

/-- `sorted(requirements_data, key=lambda x: int(x["req_num"]))`
(line 202).  Python `sorted` is a stable sort; a stable sort's output is
uniquely determined by the key order together with the input order of
equal-key elements, so the stable `insertionSort` computes the same list. -/
def sorted_requirements (recs : List Record) : List Record :=
  List.insertionSort (fun a b => pyInt a.req_num ≤ pyInt b.req_num) recs

/-- `sorted(overall_stats["critical_findings"], key=lambda x: int(x["req"]))`
(line 233), modelled like `sorted_requirements`. -/
def sorted_critical (entries : List CriticalEntry) : List CriticalEntry :=
  List.insertionSort (fun a b => pyInt a.req ≤ pyInt b.req) entries

/-- `top_findings = sorted_findings[:10] if len(sorted_findings) > 10 else
sorted_findings` (line 236). -/
def top_findings (entries : List CriticalEntry) : List CriticalEntry :=
  let sorted := sorted_critical entries
  if sorted.length > 10 then sorted.take 10 else sorted

end GSR

/-! ## Finding Extractor of the detailed variants

`extract_requirement_data` in `generate_interactive_summary.py`
(lines 103-151) and `create_card_based_report.py` (lines 106-154) contain a
character-identical two-strategy findings extraction; it is defined once
here. -/

/-- Strategy 1 block list:
`re.findall(r'<div class="check-item fail">(.*?)</div>\s*</div>', content,
re.DOTALL)`. -/
def fail_blocks (content : List Char) : List (List Char) :=
  findallM matchCloseDivDiv check_item_fail_open content

/-- The per-block body of strategy 1 (lines 108-134 of
`generate_interactive_summary.py`): a sub-heading as title (default
`"Failed Check"`), the first `<div>` block as details (default
`"No details available"`), and a recommendation through two nested
sub-patterns with a generic final default. -/
def process_fail_block (block : List Char) : Finding :=
  let finding_title :=
    match searchH3Title block with
    | none => "Failed Check".toList
    | some t => pyStrip (removeTags t)
  let finding_details :=
    match searchM (litClose [div_close]) div_open block with
    | none => "No details available".toList
    | some d => pyStrip d
  let recommendation :=
    match searchM (litClose [br_tag, div_close]) strong_rec block with
    | some r => pyStrip r
    | none =>
      match searchM (litClose [div_close]) rec_div_open block with
      | some r => pyStrip r
      | none => "No specific recommendation provided.".toList
  { title := finding_title, details := finding_details,
    recommendation := recommendation }

/-- Strategy 2 indicator list (line 139):
`re.findall(r'<span class="red">(.*?)</span>', content, re.DOTALL)`. -/
def fail_indicators (content : List Char) : List (List Char) :=
  findallM (litClose [span_close]) span_red_open content

/-- The finding built for one strategy-2 indicator containing `[FAIL]`
(lines 142-151): search the escaped indicator span followed by
`(?:<br>|</div>|</h3>)`, strip the captured context, and fill the details
and recommendation with fixed placeholder strings. -/
def fallback_finding (content : List Char) (indicator : List Char) : Finding :=
  let pat := span_red_open ++ indicator ++ span_close
  let context :=
    match searchM (litClose [br_tag, div_close, h3_close]) pat content with
    | some m => pyStrip m
    | none => "Failed check".toList
  { title := ("Failed: ".toList) ++ context
    details := "Specific details not available".toList
    recommendation := "Review the full requirement report for more information.".toList }

/-- The full two-strategy chain (lines 104-151): strategy 1 first; only when
it produced no findings, every strategy-2 indicator containing `[FAIL]`
contributes a fallback finding in scan order. -/
def extract_detailed_findings (content : List Char) : List Finding :=
  let detailed_findings := (fail_blocks content).map process_fail_block
  if detailed_findings.isEmpty then
    ((fail_indicators content).filter has_fail_marker).map
      (fallback_finding content)
  else detailed_findings

/-! ## generate_interactive_summary.py -/

namespace GIS

/-- `extract_requirement_data(file_path, req_num)` (lines 92-205), with the
file read modelled by the `Except` argument; the `.error` case is the
`except` branch (lines 187-205) building the synthetic error record. -/
def extract_requirement_data (req_num : List Char)
    (input : Except (List Char) (List Char)) : IRecord :=
  match input with
  | .ok content =>
    let detailed := extract_detailed_findings content
    let c := count_checks content
    let compliance_pct : ℚ :=
      if c.total_checks > 0 then (c.passed : ℚ) / (c.total_checks : ℚ) * 100 else 0
    let st := requirement_status compliance_pct
    { req_num := req_num
      findings := detailed.map Finding.title
      detailed_findings := detailed
      total_checks := c.total_checks
      passed := c.passed
      failed := c.failed
      warnings := c.warnings
      compliance_pct := compliance_pct
      status := st.1
      status_class := st.2 }
  | .error e =>
    { req_num := req_num
      findings := ["Error processing report".toList]
      detailed_findings :=
        [{ title := "Error processing report".toList
           details := ("An error occurred while processing this report: ".toList) ++ e
           recommendation := "Check the original report file for details.".toList }]
      total_checks := 1
      passed := 0
      failed := 1
      warnings := 0
      compliance_pct := 0
      status := "Unknown"
      status_class := "non-compliant" }

/-- The accumulation loop of `main` (lines 41-66): skip unresolved files;
otherwise append the record, add its counts, and promote at most the first
five detailed findings (`if i < 5`) into the critical list, tagged with the
requirement number. -/
def process : List (List Char × Except (List Char) (List Char)) →
    List IRecord × OverallStatsI
  | [] => ([], { total_checks := 0, passed := 0, failed := 0, warnings := 0,
                 critical_findings := [] })
  | (filename, input) :: rest =>
    let prev := process rest
    match extract_requirement_number filename with
    | none => prev
    | some req_num =>
      let r := extract_requirement_data req_num input
      (r :: prev.1,
        { total_checks := r.total_checks + prev.2.total_checks
          passed := r.passed + prev.2.passed
          failed := r.failed + prev.2.failed
          warnings := r.warnings + prev.2.warnings
          critical_findings :=
            (r.detailed_findings.take 5).map
              (fun f => DetailedCritical.mk req_num f.title f.details f.recommendation)
              ++ prev.2.critical_findings })

end GIS

/-! ## card_report_with_clickable.py -/

/-- `extract_stats(content)` (lines 138-195): the same two counting
strategies and per-category maximum; a zero total returns the floored
default record (one passed check, 100%, `"Compliant"`); otherwise the
percentage and the status chain. -/
def extract_stats (content : List Char) : Stats :=
  let lc := content.map Char.toLower
  let pass_count := countSubstr pass_tag lc
  let fail_count := countSubstr fail_tag lc
  let warn_count := countSubstr warn_tag lc
  let pass_count := max pass_count (countSubstr pass_div lc)
  let fail_count := max fail_count (countSubstr fail_div lc)
  let warn_count := max warn_count (countSubstr warn_div lc)
  let total_checks := pass_count + fail_count + warn_count
  if total_checks = 0 then
    { compliance_pct := 100, status := "Compliant", status_class := "compliant",
      total_checks := 1, passed := 1, failed := 0, warnings := 0 }
  else
    let compliance_pct : ℚ := (pass_count : ℚ) / (total_checks : ℚ) * 100
    let st := requirement_status compliance_pct
    { compliance_pct := compliance_pct, status := st.1, status_class := st.2,
      total_checks := total_checks, passed := pass_count,
      failed := fail_count, warnings := warn_count }

/-! ## Concrete example documents used by witnesses and counterexamples -/

/-- Content with 3 bracket-style fail markers and 5 container-class fail
markers (the reconciliation example of the spec). -/
def c2_example : List Char :=
  ("[FAIL][FAIL][FAIL]"
    ++ "<div class=" ++ "\"check-item fail\""
    ++ "<div class=" ++ "\"check-item fail\""
    ++ "<div class=" ++ "\"check-item fail\""
    ++ "<div class=" ++ "\"check-item fail\""
    ++ "<div class=" ++ "\"check-item fail\"").toList

/-- Content with no structured-block match and exactly one marker-span
match. -/
def c5_example : List Char :=
  ("<span class=" ++ "\"red\">[FAIL]</span> Weak TLS configuration</h3>").toList

/-- Content whose findings extraction yields eight findings. -/
def c8_example : List Char :=
  (String.join (List.replicate 8
    ("<span class=" ++ "\"red\">[FAIL]</span> finding</h3>"))).toList

/-! ## Helper lemmas -/

/-- The counter invariant: the returned total is the sum of the three
category counts, is at least one, and bounds the passed count. -/
theorem count_checks_spec (content : List Char) :
    (count_checks content).total_checks
      = (count_checks content).passed + (count_checks content).failed
        + (count_checks content).warnings
    ∧ 1 ≤ (count_checks content).total_checks
    ∧ (count_checks content).passed ≤ (count_checks content).total_checks := by
  unfold count_checks
  dsimp only
  split
  · rename_i h
    dsimp only
    omega
  · rename_i h
    dsimp only
    omega

/-- Record-level counts invariant for `generate_summary_report` records,
on both the success path and the error path. -/
theorem gsr_record_inv (req_num : List Char)
    (input : Except (List Char) (List Char)) :
    (GSR.extract_requirement_data req_num input).total_checks
      = (GSR.extract_requirement_data req_num input).passed
        + (GSR.extract_requirement_data req_num input).failed
        + (GSR.extract_requirement_data req_num input).warnings
    ∧ 1 ≤ (GSR.extract_requirement_data req_num input).total_checks := by
  cases input with
  | ok content =>
    have h := count_checks_spec content
    unfold GSR.extract_requirement_data
    dsimp only
    omega
  | error e =>
    unfold GSR.extract_requirement_data
    dsimp only
    omega

/-- Aggregate-level counts invariant for `generate_summary_report.main`. -/
theorem gsr_process_inv (inputs : List (List Char × Except (List Char) (List Char))) :
    (GSR.process inputs).2.total_checks
      = (GSR.process inputs).2.passed + (GSR.process inputs).2.failed
        + (GSR.process inputs).2.warnings
    ∧ ((GSR.process inputs).1 ≠ [] → 1 ≤ (GSR.process inputs).2.total_checks) := by
  induction inputs with
  | nil =>
    constructor
    · rfl
    · intro h
      exact absurd rfl h
  | cons p rest ih =>
    obtain ⟨fn, inp⟩ := p
    cases hr : extract_requirement_number fn with
    | none =>
      simpa [GSR.process, hr] using ih
    | some req_num =>
      have hrec := gsr_record_inv req_num inp
      simp only [GSR.process, hr]
      constructor
      · omega
      · intro _
        omega

/-- The status chain only ever produces one of its three literal pairs. -/
theorem requirement_status_cases (p : ℚ) :
    requirement_status p = ("Compliant", "compliant")
    ∨ requirement_status p = ("Partially Compliant", "partial")
    ∨ requirement_status p = ("Non-Compliant", "non-compliant") := by
  unfold requirement_status
  split
  · exact Or.inl rfl
  · split
    · exact Or.inr (Or.inl rfl)
    · exact Or.inr (Or.inr rfl)

/-! ## Claims -/

/-- C1: for every RequirementRecord produced by the engine — from successful
extraction, the zero-check floor, or the synthetic error path —
`total_checks = passed + failed + warnings` and `total_checks ≥ 1`; the
overall aggregate obtained by summing per-record counts satisfies the same
equation, and is at least 1 as soon as at least one record was produced. -/
theorem c1_total_checks_invariant :
    (∀ req_num input,
        (GSR.extract_requirement_data req_num input).total_checks
          = (GSR.extract_requirement_data req_num input).passed
            + (GSR.extract_requirement_data req_num input).failed
            + (GSR.extract_requirement_data req_num input).warnings
        ∧ 1 ≤ (GSR.extract_requirement_data req_num input).total_checks)
    ∧ (∀ inputs,
        (GSR.process inputs).2.total_checks
          = (GSR.process inputs).2.passed + (GSR.process inputs).2.failed
            + (GSR.process inputs).2.warnings
        ∧ ((GSR.process inputs).1 ≠ [] →
            1 ≤ (GSR.process inputs).2.total_checks)) :=
  ⟨fun req_num input => gsr_record_inv req_num input,
   fun inputs => gsr_process_inv inputs⟩

/-- Witness for C1 at a concrete one-document batch. -/
theorem c1_total_checks_invariant_witness :
    1 ≤ (GSR.process [(("pci_req1.html".toList), Except.ok [])]).2.total_checks :=
  (c1_total_checks_invariant.2 [(("pci_req1.html".toList), Except.ok [])]).2
    (by decide)

/-- C4: the Status Classifier is a pure function of the percentage with
inclusive lower bounds — `p ≥ 90` is Compliant, `70 ≤ p < 90` Partially
Compliant, `p < 70` Non-Compliant; the boundary values 90 and 70 map to the
higher tier; the per-requirement chain and the overall chain agree at every
percentage. -/
theorem c4_status_classifier :
    (∀ p : ℚ, 90 ≤ p → requirement_status p = ("Compliant", "compliant"))
    ∧ (∀ p : ℚ, 70 ≤ p → p < 90 →
        requirement_status p = ("Partially Compliant", "partial"))
    ∧ (∀ p : ℚ, p < 70 → requirement_status p = ("Non-Compliant", "non-compliant"))
    ∧ requirement_status 90 = ("Compliant", "compliant")
    ∧ requirement_status 70 = ("Partially Compliant", "partial")
    ∧ (∀ p : ℚ, overall_status_of p = requirement_status p) := by
  refine ⟨?_, ?_, ?_, ?_, ?_, ?_⟩
  · intro p hp
    simp [requirement_status, ge_iff_le, hp]
  · intro p h1 h2
    have h3 : ¬ (p ≥ 90) := by linarith
    simp [requirement_status, h3, ge_iff_le, h1]
  · intro p h1
    have h2 : ¬ (p ≥ 90) := by linarith
    have h3 : ¬ (p ≥ 70) := by linarith
    simp [requirement_status, h2, h3]
  · norm_num [requirement_status]
  · norm_num [requirement_status]
  · intro p
    rfl

/-- Witness for C4 at the concrete percentages 95, 80, 50. -/
theorem c4_status_classifier_witness :
    requirement_status 95 = ("Compliant", "compliant")
    ∧ requirement_status 80 = ("Partially Compliant", "partial")
    ∧ requirement_status 50 = ("Non-Compliant", "non-compliant") :=
  ⟨c4_status_classifier.1 95 (by norm_num),
   c4_status_classifier.2.1 80 (by norm_num) (by norm_num),
   c4_status_classifier.2.2.1 50 (by norm_num)⟩

/-- Each first component the status chain can produce. -/
theorem requirement_status_fst_cases (p : ℚ) :
    (requirement_status p).1 = "Compliant"
    ∨ (requirement_status p).1 = "Partially Compliant"
    ∨ (requirement_status p).1 = "Non-Compliant" := by
  rcases requirement_status_cases p with h | h | h <;> rw [h]
  · exact Or.inl rfl
  · exact Or.inr (Or.inl rfl)
  · exact Or.inr (Or.inr rfl)

/-- C7 counterexample: a RequirementRecord produced by the engine (through
the synthetic error path of `generate_summary_report.extract_requirement_data`)
carries the status label `"Unknown"`, which is none of the three tiers, so
the claim that no record carries any other status label is false. -/
theorem c7_counterexample :
    ((GSR.process [(("pci_req1.html".toList), Except.error ("boom".toList))]).1.map
        Record.status) = ["Unknown"]
    ∧ ¬("Unknown" = "Compliant" ∨ "Unknown" = "Partially Compliant"
        ∨ "Unknown" = "Non-Compliant") := by
  constructor
  · decide
  · decide

/-- C7 (amended): every successfully extracted RequirementRecord carries one
of the three tier labels, derived from its compliance percentage via the
fixed thresholds — in `generate_summary_report` and in
`generate_interactive_summary` alike — while the synthetic error records
carry the status `"Unknown"` (with the non-compliant status class). -/
theorem c7_status_tiers :
    ∀ req_num content,
      ((GSR.extract_requirement_data req_num (Except.ok content)).status = "Compliant"
        ∨ (GSR.extract_requirement_data req_num (Except.ok content)).status
            = "Partially Compliant"
        ∨ (GSR.extract_requirement_data req_num (Except.ok content)).status
            = "Non-Compliant")
      ∧ (GSR.extract_requirement_data req_num (Except.ok content)).status
          = (requirement_status
              (GSR.extract_requirement_data req_num (Except.ok content)).compliance_pct).1
      ∧ (∀ e, (GSR.extract_requirement_data req_num (Except.error e)).status = "Unknown"
          ∧ (GSR.extract_requirement_data req_num (Except.error e)).status_class
              = "non-compliant")
      ∧ ((GIS.extract_requirement_data req_num (Except.ok content)).status = "Compliant"
        ∨ (GIS.extract_requirement_data req_num (Except.ok content)).status
            = "Partially Compliant"
        ∨ (GIS.extract_requirement_data req_num (Except.ok content)).status
            = "Non-Compliant")
      ∧ (GIS.extract_requirement_data req_num (Except.ok content)).status
          = (requirement_status
              (GIS.extract_requirement_data req_num (Except.ok content)).compliance_pct).1
      ∧ (∀ e, (GIS.extract_requirement_data req_num (Except.error e)).status
          = "Unknown") := by
  intro req_num content
  refine ⟨?_, rfl, fun e => ⟨rfl, rfl⟩, ?_, rfl, fun e => rfl⟩
  · exact requirement_status_fst_cases _
  · exact requirement_status_fst_cases _

/-- C10: the per-requirement compliance computation never divides by zero —
`count_checks` always returns a total of at least 1, so the guard branch
substituting 0 is unreachable and the percentage is always
`passed / total * 100`, which lies in `[0, 100]` because the passed count
never exceeds the total. -/
theorem c10_percentage_safety :
    ∀ content req_num,
      1 ≤ (count_checks content).total_checks
      ∧ (count_checks content).passed ≤ (count_checks content).total_checks
      ∧ (GSR.extract_requirement_data req_num (Except.ok content)).compliance_pct
          = ((count_checks content).passed : ℚ)
              / ((count_checks content).total_checks : ℚ) * 100
      ∧ 0 ≤ (GSR.extract_requirement_data req_num (Except.ok content)).compliance_pct
      ∧ (GSR.extract_requirement_data req_num (Except.ok content)).compliance_pct
          ≤ 100 := by
  intro content req_num
  obtain ⟨_, htot, hple⟩ := count_checks_spec content
  have hpos : 0 < (count_checks content).total_checks := htot
  have hpct : (GSR.extract_requirement_data req_num (Except.ok content)).compliance_pct
      = ((count_checks content).passed : ℚ)
          / ((count_checks content).total_checks : ℚ) * 100 := by
    unfold GSR.extract_requirement_data
    dsimp only
    rw [if_pos hpos]
  have hc : ((count_checks content).passed : ℚ)
      ≤ ((count_checks content).total_checks : ℚ) := by exact_mod_cast hple
  have hcpos : (0 : ℚ) < ((count_checks content).total_checks : ℚ) := by
    exact_mod_cast hpos
  have hdiv : ((count_checks content).passed : ℚ)
      / ((count_checks content).total_checks : ℚ) ≤ 1 :=
    (div_le_one hcpos).mpr hc
  have hdiv0 : 0 ≤ ((count_checks content).passed : ℚ)
      / ((count_checks content).total_checks : ℚ) := by positivity
  refine ⟨htot, hple, hpct, ?_, ?_⟩
  · rw [hpct]
    linarith
  · rw [hpct]
    linarith

/-- C2 counterexample: at empty content both counting strategies report zero
passes, but the returned passed count is the floored 1, not the maximum 0 —
so "each of the three category counts is the maximum of the two strategy
counts" fails as a universal statement about the counter's output. -/
theorem c2_counterexample :
    (count_checks []).passed = 1
    ∧ max (countSubstr pass_tag (([] : List Char).map Char.toLower))
        (countSubstr pass_div (([] : List Char).map Char.toLower)) = 0
    ∧ (count_checks []).passed
        ≠ max (countSubstr pass_tag (([] : List Char).map Char.toLower))
            (countSubstr pass_div (([] : List Char).map Char.toLower)) := by
  refine ⟨by decide, by decide, by decide⟩

/-- C2 (amended): the failed and warnings counts are always the per-category
maximum of the bracketed-tag count and the container-class count (never the
sum), and the passed count is that maximum whenever the three maxima are not
all zero (otherwise the zero-check floor substitutes 1); in particular, for
content with 3 bracket-style and 5 container-class fail markers the failed
count is 5. -/
theorem c2_max_reconciliation :
    (∀ content : List Char,
      (count_checks content).failed
        = max (countSubstr fail_tag (content.map Char.toLower))
            (countSubstr fail_div (content.map Char.toLower))
      ∧ (count_checks content).warnings
        = max (countSubstr warn_tag (content.map Char.toLower))
            (countSubstr warn_div (content.map Char.toLower))
      ∧ (max (countSubstr pass_tag (content.map Char.toLower))
            (countSubstr pass_div (content.map Char.toLower))
          + max (countSubstr fail_tag (content.map Char.toLower))
            (countSubstr fail_div (content.map Char.toLower))
          + max (countSubstr warn_tag (content.map Char.toLower))
            (countSubstr warn_div (content.map Char.toLower)) ≠ 0 →
        (count_checks content).passed
          = max (countSubstr pass_tag (content.map Char.toLower))
              (countSubstr pass_div (content.map Char.toLower))))
    ∧ (count_checks c2_example).failed = 5
    ∧ countSubstr fail_tag (c2_example.map Char.toLower) = 3
    ∧ countSubstr fail_div (c2_example.map Char.toLower) = 5 := by
  refine ⟨?_, by decide, by decide, by decide⟩
  intro content
  unfold count_checks
  dsimp only
  split
  · rename_i h
    exact ⟨rfl, rfl, fun hne => absurd h hne⟩
  · exact ⟨rfl, rfl, fun _ => rfl⟩

/-- Witness for C2 (amended) at the 3-vs-5 example content. -/
theorem c2_max_reconciliation_witness :
    (count_checks c2_example).passed
      = max (countSubstr pass_tag (c2_example.map Char.toLower))
          (countSubstr pass_div (c2_example.map Char.toLower)) :=
  ((c2_max_reconciliation.1 c2_example).2.2) (by decide)

/-- C3: for content in which both counting strategies find zero pass, fail
and warn markers, the resulting record has `total_checks = 1`, `passed = 1`,
`failed = 0`, `warnings = 0`, compliance percentage 100 and status
`"Compliant"` — both for `generate_summary_report` records and for
`card_report_with_clickable.extract_stats`. -/
theorem c3_zero_check_floor :
    ∀ content : List Char,
      countSubstr pass_tag (content.map Char.toLower) = 0 →
      countSubstr fail_tag (content.map Char.toLower) = 0 →
      countSubstr warn_tag (content.map Char.toLower) = 0 →
      countSubstr pass_div (content.map Char.toLower) = 0 →
      countSubstr fail_div (content.map Char.toLower) = 0 →
      countSubstr warn_div (content.map Char.toLower) = 0 →
      count_checks content
          = { total_checks := 1, passed := 1, failed := 0, warnings := 0 }
      ∧ (∀ req_num,
          (GSR.extract_requirement_data req_num (Except.ok content)).total_checks = 1
          ∧ (GSR.extract_requirement_data req_num (Except.ok content)).passed = 1
          ∧ (GSR.extract_requirement_data req_num (Except.ok content)).failed = 0
          ∧ (GSR.extract_requirement_data req_num (Except.ok content)).warnings = 0
          ∧ (GSR.extract_requirement_data req_num (Except.ok content)).compliance_pct
              = 100
          ∧ (GSR.extract_requirement_data req_num (Except.ok content)).status
              = "Compliant")
      ∧ extract_stats content
          = { compliance_pct := 100, status := "Compliant",
              status_class := "compliant", total_checks := 1, passed := 1,
              failed := 0, warnings := 0 } := by
  intro content h1 h2 h3 h4 h5 h6
  have hcc : count_checks content
      = { total_checks := 1, passed := 1, failed := 0, warnings := 0 } := by
    unfold count_checks
    dsimp only
    rw [h1, h2, h3, h4, h5, h6]
    norm_num
  refine ⟨hcc, fun req_num => ?_, ?_⟩
  · unfold GSR.extract_requirement_data
    dsimp only
    rw [hcc]
    refine ⟨rfl, rfl, rfl, rfl, ?_, ?_⟩
    · norm_num
    · norm_num [requirement_status]
  · unfold extract_stats
    dsimp only
    rw [h1, h2, h3, h4, h5, h6]
    norm_num

/-- Witness for C3 at the empty document. -/
theorem c3_zero_check_floor_witness :
    count_checks [] = { total_checks := 1, passed := 1, failed := 0, warnings := 0 }
    ∧ extract_stats []
        = { compliance_pct := 100, status := "Compliant",
            status_class := "compliant", total_checks := 1, passed := 1,
            failed := 0, warnings := 0 } :=
  ⟨(c3_zero_check_floor [] (by decide) (by decide) (by decide) (by decide)
      (by decide) (by decide)).1,
   (c3_zero_check_floor [] (by decide) (by decide) (by decide) (by decide)
      (by decide) (by decide)).2.2⟩

/-- C5: the Finding Extractor uses the structured-block strategy first and
falls back to the marker-span strategy only when strategy 1 yields nothing;
on content with no structured-block match and exactly one marker-span match
it returns exactly one Finding sourced from strategy 2, whose details and
recommendation are the fixed placeholder strings. -/
theorem c5_extraction_fallback :
    (∀ content : List Char,
        (fail_blocks content).map process_fail_block ≠ [] →
        extract_detailed_findings content
          = (fail_blocks content).map process_fail_block)
    ∧ (∀ content ind,
        fail_blocks content = [] →
        (fail_indicators content).filter has_fail_marker = [ind] →
        extract_detailed_findings content = [fallback_finding content ind]
        ∧ (extract_detailed_findings content).length = 1
        ∧ (fallback_finding content ind).details
            = ("Specific details not available".toList)
        ∧ (fallback_finding content ind).recommendation
            = ("Review the full requirement report for more information.".toList)) := by
  constructor
  · intro content hne
    unfold extract_detailed_findings
    dsimp only
    cases h : (fail_blocks content).map process_fail_block with
    | nil => exact absurd h hne
    | cons a l => simp [h]
  · intro content ind hb hf
    have he : extract_detailed_findings content = [fallback_finding content ind] := by
      unfold extract_detailed_findings
      dsimp only
      simp [hb, hf]
    exact ⟨he, by rw [he]; rfl, rfl, rfl⟩

/-- Witness for C5 at a concrete document with one `[FAIL]` span and no
structured block. -/
theorem c5_extraction_fallback_witness :
    extract_detailed_findings c5_example
      = [fallback_finding c5_example ("[FAIL]".toList)] :=
  (c5_extraction_fallback.2 c5_example ("[FAIL]".toList) (by decide) (by decide)).1

/-- The record list built by `generate_interactive_summary.main` over a batch
splits along a split of the batch: every document is processed
independently. -/
theorem gis_process_append (pre post : List (List Char × Except (List Char) (List Char))) :
    (GIS.process (pre ++ post)).1 = (GIS.process pre).1 ++ (GIS.process post).1 := by
  induction pre with
  | nil => rfl
  | cons p rest ih =>
    obtain ⟨fn, inp⟩ := p
    cases hr : extract_requirement_number fn with
    | none => simpa [GIS.process, hr] using ih
    | some q => simp [GIS.process, hr, ih]

/-- C6: a read or parse error does not abort the batch — the failing document
yields exactly one synthetic record whose single Finding is titled
`"Error processing report"` with the captured error message inside its
details, with counts forced to `total = 1`, `failed = 1`, `passed = 0`,
`warnings = 0`; and every other document of the batch is still processed
around it, each resolving document contributing exactly one record. -/
theorem c6_error_recovery :
    (∀ req_num e,
        (GIS.extract_requirement_data req_num (Except.error e)).detailed_findings
          = [{ title := ("Error processing report".toList),
               details :=
                 ("An error occurred while processing this report: ".toList) ++ e,
               recommendation := ("Check the original report file for details.".toList) }]
        ∧ (GIS.extract_requirement_data req_num (Except.error e)).total_checks = 1
        ∧ (GIS.extract_requirement_data req_num (Except.error e)).failed = 1
        ∧ (GIS.extract_requirement_data req_num (Except.error e)).passed = 0
        ∧ (GIS.extract_requirement_data req_num (Except.error e)).warnings = 0)
    ∧ (∀ pre fn q e post,
        extract_requirement_number fn = some q →
        (GIS.process (pre ++ (fn, Except.error e) :: post)).1
          = (GIS.process pre).1
            ++ GIS.extract_requirement_data q (Except.error e)
              :: (GIS.process post).1) := by
  constructor
  · intro req_num e
    exact ⟨rfl, rfl, rfl, rfl, rfl⟩
  · intro pre fn q e post hq
    rw [gis_process_append]
    congr 1
    simp [GIS.process, hq]

/-- Witness for C6: a three-document batch whose middle document fails to
read; the middle record is the synthetic error record and both neighbours
are still processed. -/
theorem c6_error_recovery_witness :
    (GIS.process ([(("pci_req1.html".toList), Except.ok [])]
        ++ (("pci_req2.html".toList), Except.error ("bad encoding".toList))
          :: [(("pci_req3.html".toList), Except.ok [])])).1
      = (GIS.process [(("pci_req1.html".toList), Except.ok [])]).1
        ++ GIS.extract_requirement_data ("2".toList)
            (Except.error ("bad encoding".toList))
          :: (GIS.process [(("pci_req3.html".toList), Except.ok [])]).1 :=
  c6_error_recovery.2 _ _ _ _ _ (by decide)

/-- C8: each record's critical findings are the order-preserving 3-element
prefix of its findings (so 8 findings yield exactly 3 critical entries,
each tagged with the requirement identifier inside the aggregate), and the
presented critical list is additionally truncated to at most 10 entries. -/
theorem c8_critical_findings_cap :
    (∀ req_num content,
        (GSR.extract_requirement_data req_num (Except.ok content)).critical_findings
          = (GSR.extract_requirement_data req_num (Except.ok content)).findings.take 3)
    ∧ (∀ req_num content,
        (GSR.extract_requirement_data req_num (Except.ok content)).findings.length = 8 →
        (GSR.extract_requirement_data req_num
            (Except.ok content)).critical_findings.length = 3)
    ∧ (∀ fn q input rest,
        extract_requirement_number fn = some q →
        (GSR.process ((fn, input) :: rest)).2.critical_findings
          = ((GSR.extract_requirement_data q input).critical_findings.map
              (fun f => CriticalEntry.mk q f))
            ++ (GSR.process rest).2.critical_findings)
    ∧ (∀ entries, (GSR.top_findings entries).length ≤ 10
        ∧ GSR.top_findings entries = (GSR.sorted_critical entries).take 10) := by
  have htake : ∀ req_num content,
      (GSR.extract_requirement_data req_num (Except.ok content)).critical_findings
        = (GSR.extract_requirement_data req_num (Except.ok content)).findings.take 3 := by
    intro req_num content
    unfold GSR.extract_requirement_data
    dsimp only
    cases h : GSR.findings_of content with
    | nil => simp
    | cons a l => simp
  refine ⟨htake, ?_, ?_, ?_⟩
  · intro req_num content hlen
    rw [htake req_num content, List.length_take, hlen]
    decide
  · intro fn q input rest hq
    simp [GSR.process, hq]
  · intro entries
    unfold GSR.top_findings
    dsimp only
    split
    · exact ⟨by simp, rfl⟩
    · rename_i h
      constructor
      · omega
      · rw [List.take_of_length_le]
        omega

/-- Witness for C8 at a document with eight extracted findings, inside a
one-document batch. -/
theorem c8_critical_findings_cap_witness :
    (GSR.extract_requirement_data ("1".toList)
        (Except.ok c8_example)).critical_findings.length = 3
    ∧ (GSR.process [(("pci_req1.html".toList), Except.ok c8_example)]).2.critical_findings
        = ((GSR.extract_requirement_data ("1".toList)
              (Except.ok c8_example)).critical_findings.map
            (fun f => CriticalEntry.mk ("1".toList) f))
          ++ (GSR.process
              ([] : List (List Char × Except (List Char) (List Char)))).2.critical_findings :=
  ⟨c8_critical_findings_cap.2.1 ("1".toList) c8_example (by decide),
   c8_critical_findings_cap.2.2.1 ("pci_req1.html".toList) ("1".toList)
     (Except.ok c8_example) [] (by decide)⟩

/-- C9: records are sorted for presentation by their identifier interpreted
as an integer, ascending — `["2", "10", "9"]` sorts as `["2", "9", "10"]`,
not lexically — and the critical-findings list is ordered by the same
numeric key. -/
theorem c9_numeric_sort :
    ((GSR.sorted_requirements
        [GSR.extract_requirement_data ("2".toList) (Except.ok []),
         GSR.extract_requirement_data ("10".toList) (Except.ok []),
         GSR.extract_requirement_data ("9".toList) (Except.ok [])]).map
          Record.req_num)
      = [("2".toList), ("9".toList), ("10".toList)]
    ∧ (∀ recs : List Record,
        (GSR.sorted_requirements recs).Pairwise
          (fun a b => pyInt a.req_num ≤ pyInt b.req_num))
    ∧ (∀ entries : List CriticalEntry,
        (GSR.sorted_critical entries).Pairwise
          (fun a b => pyInt a.req ≤ pyInt b.req)) := by
  refine ⟨by decide, ?_, ?_⟩
  · intro recs
    haveI : IsTotal Record (fun a b => pyInt a.req_num ≤ pyInt b.req_num) :=
      ⟨fun a b => Nat.le_total _ _⟩
    haveI : IsTrans Record (fun a b => pyInt a.req_num ≤ pyInt b.req_num) :=
      ⟨fun a b c hab hbc => le_trans hab hbc⟩
    exact List.sorted_insertionSort
      (fun a b => pyInt a.req_num ≤ pyInt b.req_num) recs
  · intro entries
    haveI : IsTotal CriticalEntry (fun a b => pyInt a.req ≤ pyInt b.req) :=
      ⟨fun a b => Nat.le_total _ _⟩
    haveI : IsTrans CriticalEntry (fun a b => pyInt a.req ≤ pyInt b.req) :=
      ⟨fun a b c hab hbc => le_trans hab hbc⟩
    exact List.sorted_insertionSort
      (fun a b => pyInt a.req ≤ pyInt b.req) entries
